import Mathlib

/-!
Shallow embedding of the MXNet numpy random operators for the Pareto and
Rayleigh distributions (`src/operator/numpy/random/np_pareto_op.h` and
`src/operator/numpy/random/np_rayleigh_op.h`).

Floating-point arithmetic is modelled over the reals.  Device buffers are
modelled as functions from linear indices to values; the per-element device
kernels become the per-index value transformations the source performs, and
the two forward entry points become functions producing the final contents of
the output and noise buffers together with a success flag (the flag is `false`
exactly when a `CHECK_*` macro in the source would abort the call, in which
case the buffers hold what had been written up to that point).
-/

namespace NpRandomOp

/-- Modelled from the spec: the stride/coordinate machinery (`unravel`, `dot`
and `calc_stride` of the broadcast utility) is an external collaborator of
this core, not under `src/`.  `unravel` turns a linear output index into a
row-major coordinate against a shape. -/
def unravel : ℕ → List ℕ → List ℕ
  | _, [] => []
  | i, d :: ds => i / ds.prod % d :: unravel (i % ds.prod) ds

/-- Modelled from the spec: the stride vector holds the per-dimension
element-count multiplier used to map a coordinate to a linear buffer offset,
zero in dimensions being broadcast (size ≤ 1). -/
def calcStride : List ℕ → List ℕ
  | [] => []
  | d :: ds => (if 1 < d then ds.prod else 0) :: calcStride ds

/-- Modelled from the spec: dot product of a coordinate with a stride
vector. -/
def dotCoord (coord stride : List ℕ) : ℕ :=
  ((coord.zip stride).map fun p => p.1 * p.2).sum

/-- The source parameter index computed by both broadcast kernels
(np_pareto_op.h lines 97-98, np_rayleigh_op.h lines 98-99):
`coord = unravel(i, oshape); idx = dot(coord, stride)`. -/
def paramIndex (i : ℕ) (oshape stride : List ℕ) : ℕ :=
  dotCoord (unravel i oshape) stride

/-- `scalar_pareto_kernel<DType>::Map` (np_pareto_op.h lines 71-76): the value
written to `out[i]`; the noise slot is read but not written. -/
noncomputable def scalar_pareto_kernel (a : ℝ) (noise_i : ℝ) : ℝ :=
  Real.exp (-Real.log noise_i / a) - 1

/-- `pareto_kernel<ndim, IType, OType>::Map` (np_pareto_op.h lines 89-104):
given the incoming value of `noise[i]`, returns the pair
(final value of `noise[i]`, value of `out[i]`). -/
noncomputable def pareto_kernel (stride oshape : List ℕ) (aparams : ℕ → ℝ)
    (i : ℕ) (noise_i : ℝ) : ℝ × ℝ :=
  let idx := paramIndex i oshape stride
  let n1 := -Real.log noise_i
  let out := Real.exp (n1 / aparams idx) - 1
  (-n1 * (out + 1) * (1 / (aparams idx * aparams idx)), out)

/-- `scalar_rayleigh_kernel<DType>::Map` (np_rayleigh_op.h lines 71-77):
given the incoming value of `threshold[i]`, returns the pair
(final value of `threshold[i]`, value of `out[i]`). -/
noncomputable def scalar_rayleigh_kernel (scale : ℝ) (threshold_i : ℝ) : ℝ × ℝ :=
  let thr := Real.sqrt (-2 * Real.log threshold_i)
  (thr, scale * thr)

/-- `rayleigh_kernel<ndim, IType, OType>::Map` (np_rayleigh_op.h lines
90-103). -/
noncomputable def rayleigh_kernel (stride oshape : List ℕ) (scales : ℕ → ℝ)
    (i : ℕ) (threshold_i : ℝ) : ℝ × ℝ :=
  let idx := paramIndex i oshape stride
  let thr := Real.sqrt (-2 * Real.log threshold_i)
  (thr, scales idx * thr)

/-- `check_legal_a_kernel<IType>::Map` (np_pareto_op.h lines 80-87): the flag
value after processing one parameter element. -/
noncomputable def check_legal_a_kernel (a_i : ℝ) (flag : ℝ) : ℝ :=
  if a_i ≤ 0 then -1 else flag

/-- `check_legal_scale_kernel<IType>::Map` (np_rayleigh_op.h lines 81-88). -/
noncomputable def check_legal_scale_kernel (s_i : ℝ) (flag : ℝ) : ℝ :=
  if s_i < 0 then -1 else flag

/-- The legality-check kernel launched over every element of the Pareto
parameter tensor, threading the device flag. -/
noncomputable def runCheckA : List ℝ → ℝ → ℝ
  | [], flag => flag
  | x :: xs, flag => runCheckA xs (check_legal_a_kernel x flag)

/-- The legality-check kernel launched over every element of the Rayleigh
parameter tensor, threading the device flag. -/
noncomputable def runCheckScale : List ℝ → ℝ → ℝ
  | [], flag => flag
  | x :: xs, flag => runCheckScale xs (check_legal_scale_kernel x flag)

/-- Result of a forward call: success flag (`false` when a `CHECK_*` aborts
the call) and the final contents of the primary output buffer and of the
noise/threshold output buffer. -/
structure FwdResult where
  ok : Bool
  out : ℕ → ℝ
  noise : ℕ → ℝ

/-- `NumpyParetoForward` (np_pareto_op.h lines 108-162).  `a?` is the
construction-time scalar parameter (`param.a`), `aT` the parameter tensor
(`inputs[0]`) flattened, `stride`/`oshape` the stride vector and broadcast
output shape delivered by the external `FillShape`/`calc_stride`
collaborators, `n` the output element count (`outputs[0].Size()`), `u` the
fresh uniform draws placed in `outputs[1]` by `SampleUniform`, and `out0` the
prior contents of `outputs[0]`.  The noise buffer is overwritten with `u`
before any legality check runs (line 125 precedes lines 127 and 134-138). -/
noncomputable def NumpyParetoForward (a? : Option ℝ) (aT : List ℝ)
    (stride oshape : List ℕ) (n : ℕ) (u : ℕ → ℝ) (out0 : ℕ → ℝ) : FwdResult :=
  let noise := u
  match a? with
  | some a =>
      if 0 < a then
        { ok := true
          out := fun i => if i < n then scalar_pareto_kernel a (noise i) else out0 i
          noise := noise }
      else { ok := false, out := out0, noise := noise }
  | none =>
      if runCheckA aT 0 < 0 then
        { ok := false, out := out0, noise := noise }
      else
        { ok := true
          out := fun i => if i < n then
              (pareto_kernel stride oshape (fun j => aT.getD j 0) i (noise i)).2
            else out0 i
          noise := fun i => if i < n then
              (pareto_kernel stride oshape (fun j => aT.getD j 0) i (noise i)).1
            else noise i }

/-- `NumpyRayleighForward` (np_rayleigh_op.h lines 107-164), analogous to
`NumpyParetoForward`; the scalar check is `CHECK_GE(scale, 0.0)` and the
scalar kernel also overwrites the threshold (noise) slot. -/
noncomputable def NumpyRayleighForward (scale? : Option ℝ) (sT : List ℝ)
    (stride oshape : List ℕ) (n : ℕ) (u : ℕ → ℝ) (out0 : ℕ → ℝ) : FwdResult :=
  let noise := u
  match scale? with
  | some scale =>
      if 0 ≤ scale then
        { ok := true
          out := fun i => if i < n then (scalar_rayleigh_kernel scale (noise i)).2 else out0 i
          noise := fun i => if i < n then (scalar_rayleigh_kernel scale (noise i)).1 else noise i }
      else { ok := false, out := out0, noise := noise }
  | none =>
      if runCheckScale sT 0 < 0 then
        { ok := false, out := out0, noise := noise }
      else
        { ok := true
          out := fun i => if i < n then
              (rayleigh_kernel stride oshape (fun j => sT.getD j 0) i (noise i)).2
            else out0 i
          noise := fun i => if i < n then
              (rayleigh_kernel stride oshape (fun j => sT.getD j 0) i (noise i)).1
            else noise i }

/-- What a backward entry point does: either it returns without launching
anything (no buffer writes) or it delegates to the shared
`CommonScalarReparamBackwardImpl` broadcast-backward reduction. -/
inductive BwAction where
  | noop
  | delegate

/-- `ParetoReparamBackward` (np_pareto_op.h lines 164-194): control flow as a
function of the number of input tensors, the element count of `inputs[0]`
(the incoming gradient) and the number of output tensors. -/
def ParetoReparamBackward (inputsLen input0Size outputsLen : ℕ) : BwAction :=
  if input0Size = 0 then BwAction.noop
  else if outputsLen = 0 then BwAction.noop
  else if inputsLen = 5 then BwAction.delegate
  else BwAction.noop

/-- `RayleighReparamBackward` (np_rayleigh_op.h lines 166-196): identical
control flow. -/
def RayleighReparamBackward (inputsLen input0Size outputsLen : ℕ) : BwAction :=
  if input0Size = 0 then BwAction.noop
  else if outputsLen = 0 then BwAction.noop
  else if inputsLen = 5 then BwAction.delegate
  else BwAction.noop

/-! ### Helper lemmas -/

theorem pareto_kernel_fst (stride oshape : List ℕ) (aparams : ℕ → ℝ) (i : ℕ) (v : ℝ) :
    (pareto_kernel stride oshape aparams i v).1
      = -(-Real.log v)
          * ((Real.exp (-Real.log v / aparams (paramIndex i oshape stride)) - 1) + 1)
          * (1 / (aparams (paramIndex i oshape stride) * aparams (paramIndex i oshape stride))) :=
  rfl

theorem pareto_kernel_snd (stride oshape : List ℕ) (aparams : ℕ → ℝ) (i : ℕ) (v : ℝ) :
    (pareto_kernel stride oshape aparams i v).2
      = Real.exp (-Real.log v / aparams (paramIndex i oshape stride)) - 1 :=
  rfl

theorem rayleigh_kernel_fst (stride oshape : List ℕ) (scales : ℕ → ℝ) (i : ℕ) (v : ℝ) :
    (rayleigh_kernel stride oshape scales i v).1 = Real.sqrt (-2 * Real.log v) :=
  rfl

theorem rayleigh_kernel_snd (stride oshape : List ℕ) (scales : ℕ → ℝ) (i : ℕ) (v : ℝ) :
    (rayleigh_kernel stride oshape scales i v).2
      = scales (paramIndex i oshape stride) * Real.sqrt (-2 * Real.log v) :=
  rfl

theorem runCheckA_eq (l : List ℝ) : ∀ f : ℝ,
    runCheckA l f = if ∃ x ∈ l, x ≤ 0 then -1 else f := by
  induction l with
  | nil => intro f; simp [runCheckA]
  | cons x xs ih =>
    intro f
    show runCheckA xs (check_legal_a_kernel x f) = _
    rw [ih]
    by_cases hx : x ≤ 0 <;> simp [check_legal_a_kernel, hx]

theorem runCheckScale_eq (l : List ℝ) : ∀ f : ℝ,
    runCheckScale l f = if ∃ x ∈ l, x < 0 then -1 else f := by
  induction l with
  | nil => intro f; simp [runCheckScale]
  | cons x xs ih =>
    intro f
    show runCheckScale xs (check_legal_scale_kernel x f) = _
    rw [ih]
    by_cases hx : x < 0 <;> simp [check_legal_scale_kernel, hx]

theorem runCheckA_nonneg (l : List ℝ) (h : ¬∃ x ∈ l, x ≤ 0) :
    ¬runCheckA l 0 < 0 := by
  rw [runCheckA_eq, if_neg h]
  exact lt_irrefl 0

theorem runCheckScale_nonneg (l : List ℝ) (h : ¬∃ x ∈ l, x < 0) :
    ¬runCheckScale l 0 < 0 := by
  rw [runCheckScale_eq, if_neg h]
  exact lt_irrefl 0

theorem runCheckA_neg (l : List ℝ) (h : ∃ x ∈ l, x ≤ 0) :
    runCheckA l 0 < 0 := by
  rw [runCheckA_eq, if_pos h]
  norm_num

theorem runCheckScale_neg (l : List ℝ) (h : ∃ x ∈ l, x < 0) :
    runCheckScale l 0 < 0 := by
  rw [runCheckScale_eq, if_pos h]
  norm_num

theorem NumpyParetoForward_scalar_pos (a : ℝ) (aT : List ℝ) (stride oshape : List ℕ)
    (n : ℕ) (u out0 : ℕ → ℝ) (ha : 0 < a) :
    NumpyParetoForward (some a) aT stride oshape n u out0
      = { ok := true
          out := fun i => if i < n then scalar_pareto_kernel a (u i) else out0 i
          noise := u } := by
  simp only [NumpyParetoForward]
  rw [if_pos ha]

theorem NumpyParetoForward_scalar_neg (a : ℝ) (aT : List ℝ) (stride oshape : List ℕ)
    (n : ℕ) (u out0 : ℕ → ℝ) (ha : a ≤ 0) :
    NumpyParetoForward (some a) aT stride oshape n u out0
      = { ok := false, out := out0, noise := u } := by
  simp only [NumpyParetoForward]
  rw [if_neg (not_lt.mpr ha)]

theorem NumpyParetoForward_tensor_ok (aT : List ℝ) (stride oshape : List ℕ)
    (n : ℕ) (u out0 : ℕ → ℝ) (h : ¬∃ x ∈ aT, x ≤ 0) :
    NumpyParetoForward none aT stride oshape n u out0
      = { ok := true
          out := fun i => if i < n then
              (pareto_kernel stride oshape (fun j => aT.getD j 0) i (u i)).2
            else out0 i
          noise := fun i => if i < n then
              (pareto_kernel stride oshape (fun j => aT.getD j 0) i (u i)).1
            else u i } := by
  simp only [NumpyParetoForward]
  rw [if_neg (runCheckA_nonneg aT h)]

theorem NumpyParetoForward_tensor_bad (aT : List ℝ) (stride oshape : List ℕ)
    (n : ℕ) (u out0 : ℕ → ℝ) (h : ∃ x ∈ aT, x ≤ 0) :
    NumpyParetoForward none aT stride oshape n u out0
      = { ok := false, out := out0, noise := u } := by
  simp only [NumpyParetoForward]
  rw [if_pos (runCheckA_neg aT h)]

theorem NumpyRayleighForward_scalar_pos (scale : ℝ) (sT : List ℝ) (stride oshape : List ℕ)
    (n : ℕ) (u out0 : ℕ → ℝ) (hs : 0 ≤ scale) :
    NumpyRayleighForward (some scale) sT stride oshape n u out0
      = { ok := true
          out := fun i => if i < n then (scalar_rayleigh_kernel scale (u i)).2 else out0 i
          noise := fun i => if i < n then (scalar_rayleigh_kernel scale (u i)).1 else u i } := by
  simp only [NumpyRayleighForward]
  rw [if_pos hs]

theorem NumpyRayleighForward_scalar_neg (scale : ℝ) (sT : List ℝ) (stride oshape : List ℕ)
    (n : ℕ) (u out0 : ℕ → ℝ) (hs : scale < 0) :
    NumpyRayleighForward (some scale) sT stride oshape n u out0
      = { ok := false, out := out0, noise := u } := by
  simp only [NumpyRayleighForward]
  rw [if_neg (not_le.mpr hs)]

theorem NumpyRayleighForward_tensor_ok (sT : List ℝ) (stride oshape : List ℕ)
    (n : ℕ) (u out0 : ℕ → ℝ) (h : ¬∃ x ∈ sT, x < 0) :
    NumpyRayleighForward none sT stride oshape n u out0
      = { ok := true
          out := fun i => if i < n then
              (rayleigh_kernel stride oshape (fun j => sT.getD j 0) i (u i)).2
            else out0 i
          noise := fun i => if i < n then
              (rayleigh_kernel stride oshape (fun j => sT.getD j 0) i (u i)).1
            else u i } := by
  simp only [NumpyRayleighForward]
  rw [if_neg (runCheckScale_nonneg sT h)]

theorem NumpyRayleighForward_tensor_bad (sT : List ℝ) (stride oshape : List ℕ)
    (n : ℕ) (u out0 : ℕ → ℝ) (h : ∃ x ∈ sT, x < 0) :
    NumpyRayleighForward none sT stride oshape n u out0
      = { ok := false, out := out0, noise := u } := by
  simp only [NumpyRayleighForward]
  rw [if_pos (runCheckScale_neg sT h)]

/-! ### Claim theorems -/

/-- Claim C1: for every output element of a Pareto forward call with
parameter a > 0 (scalar path with the construction-time scalar, or tensor
path with the broadcast-indexed parameter element) and uniform draw
u = `u i` in (0,1) at that position, the output value equals
exp(-ln(u)/a) - 1. -/
theorem pareto_output_formula (a : ℝ) (aT : List ℝ) (stride oshape : List ℕ)
    (n : ℕ) (u out0 : ℕ → ℝ) (i : ℕ) (hi : i < n) (ha : 0 < a)
    (haT : ∀ x ∈ aT, 0 < x) (hu0 : 0 < u i) (hu1 : u i < 1) :
    (NumpyParetoForward (some a) aT stride oshape n u out0).out i
      = Real.exp (-Real.log (u i) / a) - 1 ∧
    (NumpyParetoForward none aT stride oshape n u out0).out i
      = Real.exp (-Real.log (u i) / aT.getD (paramIndex i oshape stride) 0) - 1 := by
  have hok : ¬∃ x ∈ aT, x ≤ 0 := by
    rintro ⟨x, hx, hx0⟩
    exact absurd (haT x hx) (not_lt.mpr hx0)
  rw [NumpyParetoForward_scalar_pos a aT stride oshape n u out0 ha,
    NumpyParetoForward_tensor_ok aT stride oshape n u out0 hok]
  constructor
  · simp only [if_pos hi]
    rfl
  · simp only [if_pos hi]
    rw [pareto_kernel_snd]

/-- Witness for C1 at a = 1, aT = [2], i = 0, n = 1, u ≡ 1/2. -/
theorem pareto_output_formula_witness :
    (0 : ℕ) < 1 ∧ (0 : ℝ) < 1 ∧ (0 : ℝ) < 1 / 2 ∧ (1 : ℝ) / 2 < 1 ∧
    ((NumpyParetoForward (some 1) [2] [0] [1] 1 (fun _ => 1 / 2) (fun _ => 0)).out 0
        = Real.exp (-Real.log (1 / 2) / 1) - 1 ∧
      (NumpyParetoForward none [2] [0] [1] 1 (fun _ => 1 / 2) (fun _ => 0)).out 0
        = Real.exp (-Real.log (1 / 2) / [(2 : ℝ)].getD (paramIndex 0 [1] [0]) 0) - 1) :=
  ⟨Nat.zero_lt_one, one_pos, by norm_num, by norm_num,
    pareto_output_formula 1 [2] [0] [1] 1 (fun _ => 1 / 2) (fun _ => 0) 0
      Nat.zero_lt_one one_pos (by norm_num) (by norm_num) (by norm_num)⟩

/-- Claim C2: for every output element of a Rayleigh forward call with
parameter scale ≥ 0 (scalar path with the construction-time scalar, or tensor
path with the broadcast-indexed parameter element) and uniform draw
u = `u i` in (0,1) at that position, the output value equals
scale * sqrt(-2 * ln(u)). -/
theorem rayleigh_output_formula (scale : ℝ) (sT : List ℝ) (stride oshape : List ℕ)
    (n : ℕ) (u out0 : ℕ → ℝ) (i : ℕ) (hi : i < n) (hs : 0 ≤ scale)
    (hsT : ∀ x ∈ sT, 0 ≤ x) (hu0 : 0 < u i) (hu1 : u i < 1) :
    (NumpyRayleighForward (some scale) sT stride oshape n u out0).out i
      = scale * Real.sqrt (-2 * Real.log (u i)) ∧
    (NumpyRayleighForward none sT stride oshape n u out0).out i
      = sT.getD (paramIndex i oshape stride) 0 * Real.sqrt (-2 * Real.log (u i)) := by
  have hok : ¬∃ x ∈ sT, x < 0 := by
    rintro ⟨x, hx, hx0⟩
    exact absurd (hsT x hx) (not_le.mpr hx0)
  rw [NumpyRayleighForward_scalar_pos scale sT stride oshape n u out0 hs,
    NumpyRayleighForward_tensor_ok sT stride oshape n u out0 hok]
  constructor
  · simp only [if_pos hi]
    rfl
  · simp only [if_pos hi]
    rw [rayleigh_kernel_snd]

/-- Witness for C2 at scale = 3, sT = [2], i = 0, n = 1, u ≡ 1/2. -/
theorem rayleigh_output_formula_witness :
    (0 : ℕ) < 1 ∧ (0 : ℝ) ≤ 3 ∧ (0 : ℝ) < 1 / 2 ∧ (1 : ℝ) / 2 < 1 ∧
    ((NumpyRayleighForward (some 3) [2] [0] [1] 1 (fun _ => 1 / 2) (fun _ => 0)).out 0
        = 3 * Real.sqrt (-2 * Real.log (1 / 2)) ∧
      (NumpyRayleighForward none [2] [0] [1] 1 (fun _ => 1 / 2) (fun _ => 0)).out 0
        = [(2 : ℝ)].getD (paramIndex 0 [1] [0]) 0 * Real.sqrt (-2 * Real.log (1 / 2))) :=
  ⟨Nat.zero_lt_one, by norm_num, by norm_num, by norm_num,
    rayleigh_output_formula 3 [2] [0] [1] 1 (fun _ => 1 / 2) (fun _ => 0) 0
      Nat.zero_lt_one (by norm_num) (by norm_num) (by norm_num) (by norm_num)⟩

/-- Claim C3: after the Pareto broadcast kernel finishes at position i with
uniform draw u = `u` in (0,1) and broadcast-indexed parameter a > 0, the noise
slot holds -noise·(out+1)/a² where noise is the value that slot held at that
point (namely -ln u), i.e. ln(u)·(out+1)/a², and this stored value is the
partial derivative of the output a ↦ exp(-ln(u)/a) - 1 with respect to a. -/
theorem pareto_noise_grad (u : ℝ) (stride oshape : List ℕ) (aparams : ℕ → ℝ) (i : ℕ)
    (ha : 0 < aparams (paramIndex i oshape stride)) (hu0 : 0 < u) (hu1 : u < 1) :
    (pareto_kernel stride oshape aparams i u).1
      = Real.log u * ((pareto_kernel stride oshape aparams i u).2 + 1)
          / (aparams (paramIndex i oshape stride) * aparams (paramIndex i oshape stride)) ∧
    HasDerivAt (fun t : ℝ => Real.exp (-Real.log u / t) - 1)
      ((pareto_kernel stride oshape aparams i u).1)
      (aparams (paramIndex i oshape stride)) := by
  have hb0 : aparams (paramIndex i oshape stride) ≠ 0 := ne_of_gt ha
  constructor
  · rw [pareto_kernel_fst, pareto_kernel_snd]
    ring
  · rw [pareto_kernel_fst]
    have h1 : HasDerivAt (fun t : ℝ => t⁻¹)
        (-((aparams (paramIndex i oshape stride)) ^ 2)⁻¹)
        (aparams (paramIndex i oshape stride)) := hasDerivAt_inv hb0
    have h2 := h1.const_mul (-Real.log u)
    have h3 := h2.exp
    have h4 := h3.sub_const 1
    have hfun : (fun t : ℝ => Real.exp (-Real.log u / t) - 1)
        = fun t : ℝ => Real.exp (-Real.log u * t⁻¹) - 1 := by
      funext t
      rw [div_eq_mul_inv]
    rw [hfun]
    convert h4 using 1
    rw [div_eq_mul_inv]
    field_simp
    ring

/-- Witness for C3 at aparams ≡ 2, i = 0, oshape = [1], stride = [0],
u = 1/2. -/
theorem pareto_noise_grad_witness :
    (0 : ℝ) < (fun _ : ℕ => (2 : ℝ)) (paramIndex 0 [1] [0]) ∧ (0 : ℝ) < 1 / 2 ∧
    (1 : ℝ) / 2 < 1 ∧
    ((pareto_kernel [0] [1] (fun _ => 2) 0 (1 / 2)).1
        = Real.log (1 / 2) * ((pareto_kernel [0] [1] (fun _ => 2) 0 (1 / 2)).2 + 1)
            / ((fun _ : ℕ => (2 : ℝ)) (paramIndex 0 [1] [0])
                * (fun _ : ℕ => (2 : ℝ)) (paramIndex 0 [1] [0])) ∧
      HasDerivAt (fun t : ℝ => Real.exp (-Real.log (1 / 2) / t) - 1)
        ((pareto_kernel [0] [1] (fun _ => 2) 0 (1 / 2)).1)
        ((fun _ : ℕ => (2 : ℝ)) (paramIndex 0 [1] [0]))) :=
  ⟨by norm_num, by norm_num, by norm_num,
    pareto_noise_grad (1 / 2) [0] [1] (fun _ => 2) 0 (by norm_num) (by norm_num)
      (by norm_num)⟩

/-- Claim C9: for every fixed Pareto parameter a > 0, the forward transform is
strictly monotonically decreasing in the uniform draw: for u1 < u2 in (0,1)
the scalar kernel output at u1 exceeds the one at u2. -/
theorem pareto_strictly_decreasing (a u1 u2 : ℝ) (ha : 0 < a)
    (h0 : 0 < u1) (h12 : u1 < u2) (h2 : u2 < 1) :
    scalar_pareto_kernel a u2 < scalar_pareto_kernel a u1 := by
  have hlog : Real.log u1 < Real.log u2 := Real.log_lt_log h0 h12
  have hdiv : -Real.log u2 / a < -Real.log u1 / a := by
    apply (div_lt_div_iff_of_pos_right ha).mpr
    linarith
  have hexp : Real.exp (-Real.log u2 / a) < Real.exp (-Real.log u1 / a) :=
    Real.exp_lt_exp.mpr hdiv
  have := sub_lt_sub_right hexp 1
  simpa [scalar_pareto_kernel] using this

/-- Witness for C9 at a = 1, u1 = 1/4, u2 = 1/2. -/
theorem pareto_strictly_decreasing_witness :
    (0 : ℝ) < 1 ∧ (0 : ℝ) < 1 / 4 ∧ (1 : ℝ) / 4 < 1 / 2 ∧ (1 : ℝ) / 2 < 1 ∧
    scalar_pareto_kernel 1 (1 / 2) < scalar_pareto_kernel 1 (1 / 4) :=
  ⟨one_pos, by norm_num, by norm_num, by norm_num,
    pareto_strictly_decreasing 1 (1 / 4) (1 / 2) one_pos (by norm_num) (by norm_num)
      (by norm_num)⟩

/-- Claim C4: a forward call fails with a domain error if and only if the
parameter violates the distribution's domain constraint, with the exact
strictness per distribution: Pareto fails iff the scalar parameter, or at
least one element of the parameter tensor, satisfies a ≤ 0; Rayleigh fails
iff the scalar parameter, or at least one element of the parameter tensor,
satisfies scale < 0; a parameter with all elements valid never causes a
failure. -/
theorem forward_domain_check (a scale : ℝ) (aT sT : List ℝ) (stride oshape : List ℕ)
    (n : ℕ) (u out0 : ℕ → ℝ) :
    ((NumpyParetoForward (some a) aT stride oshape n u out0).ok = false ↔ a ≤ 0) ∧
    ((NumpyParetoForward none aT stride oshape n u out0).ok = false ↔ ∃ x ∈ aT, x ≤ 0) ∧
    ((NumpyRayleighForward (some scale) sT stride oshape n u out0).ok = false ↔ scale < 0) ∧
    ((NumpyRayleighForward none sT stride oshape n u out0).ok = false ↔ ∃ x ∈ sT, x < 0) := by
  refine ⟨?_, ?_, ?_, ?_⟩
  · by_cases ha : 0 < a
    · rw [NumpyParetoForward_scalar_pos a aT stride oshape n u out0 ha]
      simp [not_le.mpr ha]
    · rw [NumpyParetoForward_scalar_neg a aT stride oshape n u out0 (not_lt.mp ha)]
      simp [not_lt.mp ha]
  · by_cases hT : ∃ x ∈ aT, x ≤ 0
    · rw [NumpyParetoForward_tensor_bad aT stride oshape n u out0 hT]
      simp [hT]
    · rw [NumpyParetoForward_tensor_ok aT stride oshape n u out0 hT]
      simp [hT]
  · by_cases hs : 0 ≤ scale
    · rw [NumpyRayleighForward_scalar_pos scale sT stride oshape n u out0 hs]
      simp [not_lt.mpr hs]
    · rw [NumpyRayleighForward_scalar_neg scale sT stride oshape n u out0 (not_le.mp hs)]
      simp [not_le.mp hs]
  · by_cases hT : ∃ x ∈ sT, x < 0
    · rw [NumpyRayleighForward_tensor_bad sT stride oshape n u out0 hT]
      simp [hT]
    · rw [NumpyRayleighForward_tensor_ok sT stride oshape n u out0 hT]
      simp [hT]

/-- Claim C5: in the tensor path of both distributions, the parameter element
used for output linear index i is obtained by unraveling i against the
broadcast output shape and dotting the coordinate with the parameter's
zero-padded stride vector; in particular, for parameter shape (3,1) broadcast
against output shape (3,4), output element (i,j) (linear index 4·i+j) uses
parameter element (i,0) (linear index i) for every j, in both kernels. -/
theorem broadcast_param_element (aparams scales : ℕ → ℝ) (u : ℝ) (i j : ℕ)
    (hi : i < 3) (hj : j < 4) :
    paramIndex (4 * i + j) [3, 4] (calcStride [3, 1]) = i ∧
    (pareto_kernel (calcStride [3, 1]) [3, 4] aparams (4 * i + j) u).2
      = Real.exp (-Real.log u / aparams i) - 1 ∧
    (rayleigh_kernel (calcStride [3, 1]) [3, 4] scales (4 * i + j) u).2
      = scales i * Real.sqrt (-2 * Real.log u) := by
  have hidx : paramIndex (4 * i + j) [3, 4] (calcStride [3, 1]) = i := by
    interval_cases i <;> interval_cases j <;> rfl
  refine ⟨hidx, ?_, ?_⟩
  · rw [pareto_kernel_snd, hidx]
  · rw [rayleigh_kernel_snd, hidx]

/-- Witness for C5 at i = 2, j = 3 (output element (2,3) uses parameter
element (2,0)), with aparams ≡ 5, scales ≡ 5, u = 1/2. -/
theorem broadcast_param_element_witness :
    (2 : ℕ) < 3 ∧ (3 : ℕ) < 4 ∧
    (paramIndex (4 * 2 + 3) [3, 4] (calcStride [3, 1]) = 2 ∧
      (pareto_kernel (calcStride [3, 1]) [3, 4] (fun _ => 5) (4 * 2 + 3) (1 / 2)).2
        = Real.exp (-Real.log (1 / 2) / (fun _ : ℕ => (5 : ℝ)) 2) - 1 ∧
      (rayleigh_kernel (calcStride [3, 1]) [3, 4] (fun _ => 5) (4 * 2 + 3) (1 / 2)).2
        = (fun _ : ℕ => (5 : ℝ)) 2 * Real.sqrt (-2 * Real.log (1 / 2))) :=
  ⟨by norm_num, by norm_num,
    broadcast_param_element (fun _ => 5) (fun _ => 5) (1 / 2) 2 3 (by norm_num)
      (by norm_num)⟩

theorem pareto_kernel_grad_form (stride oshape : List ℕ) (aparams : ℕ → ℝ) (i : ℕ) (v : ℝ) :
    (pareto_kernel stride oshape aparams i v).1
      = Real.log v * ((pareto_kernel stride oshape aparams i v).2 + 1)
          / (aparams (paramIndex i oshape stride) * aparams (paramIndex i oshape stride)) := by
  rw [pareto_kernel_fst, pareto_kernel_snd]
  ring

/-- Claim C6 counterexample: a successful Pareto forward call on the
scalar-parameter path (a = 1, one element, uniform draw 1/2) leaves the noise
buffer holding the raw uniform draw 1/2, not the precomputed gradient factor
-noise·(out+1)/a² (with noise = -ln u); so the claim's assertion that the
Pareto noise buffer holds the gradient factor on both paths is false. -/
theorem pareto_scalar_noise_counterexample :
    (NumpyParetoForward (some 1) [] [] [] 1 (fun _ => 1 / 2) (fun _ => 0)).ok = true ∧
    (NumpyParetoForward (some 1) [] [] [] 1 (fun _ => 1 / 2) (fun _ => 0)).noise 0 = 1 / 2 ∧
    (NumpyParetoForward (some 1) [] [] [] 1 (fun _ => 1 / 2) (fun _ => 0)).noise 0
      ≠ -(-Real.log (1 / 2))
          * ((NumpyParetoForward (some 1) [] [] [] 1 (fun _ => 1 / 2) (fun _ => 0)).out 0 + 1)
          * (1 / (1 * 1)) := by
  rw [NumpyParetoForward_scalar_pos 1 [] [] [] 1 (fun _ => 1 / 2) (fun _ => 0) one_pos]
  refine ⟨rfl, rfl, ?_⟩
  show (1 : ℝ) / 2
      ≠ -(-Real.log (1 / 2)) * ((Real.exp (-Real.log (1 / 2) / 1) - 1) + 1) * (1 / (1 * 1))
  intro heq
  have hlog : Real.log ((1 : ℝ) / 2) < 0 := Real.log_neg (by norm_num) (by norm_num)
  have hexp : (0 : ℝ) < Real.exp (-Real.log ((1 : ℝ) / 2) / 1) := Real.exp_pos _
  nlinarith [mul_pos (neg_pos.mpr hlog) hexp]

/-- Claim C6 (amended): every successful forward call of either distribution
overwrites both the output buffer and the noise buffer; the noise buffer is
left holding, for Pareto on the tensor path, the precomputed gradient factor
ln(u)·(out+1)/a², and on the scalar path the raw uniform draw; for Rayleigh
(both paths) the transformed threshold value sqrt(-2·ln u). -/
theorem forward_noise_contents (a scale : ℝ) (aT sT : List ℝ) (stride oshape : List ℕ)
    (n : ℕ) (u out0 : ℕ → ℝ) (i : ℕ) (hi : i < n) (ha : 0 < a) (hs : 0 ≤ scale)
    (haT : ¬∃ x ∈ aT, x ≤ 0) (hsT : ¬∃ x ∈ sT, x < 0) :
    (NumpyParetoForward (some a) aT stride oshape n u out0).ok = true ∧
    (NumpyParetoForward (some a) aT stride oshape n u out0).out i
      = scalar_pareto_kernel a (u i) ∧
    (NumpyParetoForward (some a) aT stride oshape n u out0).noise i = u i ∧
    (NumpyParetoForward none aT stride oshape n u out0).ok = true ∧
    (NumpyParetoForward none aT stride oshape n u out0).noise i
      = Real.log (u i) * ((NumpyParetoForward none aT stride oshape n u out0).out i + 1)
          / (aT.getD (paramIndex i oshape stride) 0 * aT.getD (paramIndex i oshape stride) 0) ∧
    (NumpyRayleighForward (some scale) sT stride oshape n u out0).ok = true ∧
    (NumpyRayleighForward (some scale) sT stride oshape n u out0).noise i
      = Real.sqrt (-2 * Real.log (u i)) ∧
    (NumpyRayleighForward (some scale) sT stride oshape n u out0).out i
      = scale * Real.sqrt (-2 * Real.log (u i)) ∧
    (NumpyRayleighForward none sT stride oshape n u out0).ok = true ∧
    (NumpyRayleighForward none sT stride oshape n u out0).noise i
      = Real.sqrt (-2 * Real.log (u i)) := by
  rw [NumpyParetoForward_scalar_pos a aT stride oshape n u out0 ha,
    NumpyParetoForward_tensor_ok aT stride oshape n u out0 haT,
    NumpyRayleighForward_scalar_pos scale sT stride oshape n u out0 hs,
    NumpyRayleighForward_tensor_ok sT stride oshape n u out0 hsT]
  refine ⟨rfl, ?_, rfl, rfl, ?_, rfl, ?_, ?_, rfl, ?_⟩
  · simp only [if_pos hi]
  · simp only [if_pos hi]
    exact pareto_kernel_grad_form stride oshape (fun j => aT.getD j 0) i (u i)
  · simp only [if_pos hi]
    rfl
  · simp only [if_pos hi]
    rfl
  · simp only [if_pos hi]
    rfl

/-- Witness for the amended C6 at a = 1, scale = 2, aT = [3], sT = [4],
i = 0, n = 1, u ≡ 1/2, out0 ≡ 9. -/
theorem forward_noise_contents_witness :
    (0 : ℕ) < 1 ∧ (0 : ℝ) < 1 ∧ (0 : ℝ) ≤ 2 ∧
    (¬∃ x ∈ [(3 : ℝ)], x ≤ 0) ∧ (¬∃ x ∈ [(4 : ℝ)], x < 0) ∧
    ((NumpyParetoForward (some 1) [3] [0] [1] 1 (fun _ => 1 / 2) (fun _ => 9)).ok = true ∧
      (NumpyParetoForward (some 1) [3] [0] [1] 1 (fun _ => 1 / 2) (fun _ => 9)).out 0
        = scalar_pareto_kernel 1 (1 / 2) ∧
      (NumpyParetoForward (some 1) [3] [0] [1] 1 (fun _ => 1 / 2) (fun _ => 9)).noise 0
        = 1 / 2 ∧
      (NumpyParetoForward none [3] [0] [1] 1 (fun _ => 1 / 2) (fun _ => 9)).ok = true ∧
      (NumpyParetoForward none [3] [0] [1] 1 (fun _ => 1 / 2) (fun _ => 9)).noise 0
        = Real.log (1 / 2)
            * ((NumpyParetoForward none [3] [0] [1] 1 (fun _ => 1 / 2) (fun _ => 9)).out 0 + 1)
            / ([(3 : ℝ)].getD (paramIndex 0 [1] [0]) 0 * [(3 : ℝ)].getD (paramIndex 0 [1] [0]) 0) ∧
      (NumpyRayleighForward (some 2) [4] [0] [1] 1 (fun _ => 1 / 2) (fun _ => 9)).ok = true ∧
      (NumpyRayleighForward (some 2) [4] [0] [1] 1 (fun _ => 1 / 2) (fun _ => 9)).noise 0
        = Real.sqrt (-2 * Real.log (1 / 2)) ∧
      (NumpyRayleighForward (some 2) [4] [0] [1] 1 (fun _ => 1 / 2) (fun _ => 9)).out 0
        = 2 * Real.sqrt (-2 * Real.log (1 / 2)) ∧
      (NumpyRayleighForward none [4] [0] [1] 1 (fun _ => 1 / 2) (fun _ => 9)).ok = true ∧
      (NumpyRayleighForward none [4] [0] [1] 1 (fun _ => 1 / 2) (fun _ => 9)).noise 0
        = Real.sqrt (-2 * Real.log (1 / 2))) :=
  ⟨Nat.zero_lt_one, one_pos, by norm_num, by norm_num, by norm_num,
    forward_noise_contents 1 2 [3] [4] [0] [1] 1 (fun _ => 1 / 2) (fun _ => 9) 0
      Nat.zero_lt_one one_pos (by norm_num) (by norm_num) (by norm_num)⟩

/-- Claim C7: every forward call of either distribution that fails the domain
check (scalar or tensor path) fails before mutating the output: the output
buffer is left unchanged and no partial output is produced. -/
theorem forward_failure_output_untouched (a scale : ℝ) (aT sT : List ℝ)
    (stride oshape : List ℕ) (n : ℕ) (u out0 : ℕ → ℝ)
    (ha : a ≤ 0) (hs : scale < 0) (haT : ∃ x ∈ aT, x ≤ 0) (hsT : ∃ x ∈ sT, x < 0) :
    (NumpyParetoForward (some a) aT stride oshape n u out0).ok = false ∧
    (NumpyParetoForward (some a) aT stride oshape n u out0).out = out0 ∧
    (NumpyParetoForward none aT stride oshape n u out0).ok = false ∧
    (NumpyParetoForward none aT stride oshape n u out0).out = out0 ∧
    (NumpyRayleighForward (some scale) sT stride oshape n u out0).ok = false ∧
    (NumpyRayleighForward (some scale) sT stride oshape n u out0).out = out0 ∧
    (NumpyRayleighForward none sT stride oshape n u out0).ok = false ∧
    (NumpyRayleighForward none sT stride oshape n u out0).out = out0 := by
  rw [NumpyParetoForward_scalar_neg a aT stride oshape n u out0 ha,
    NumpyParetoForward_tensor_bad aT stride oshape n u out0 haT,
    NumpyRayleighForward_scalar_neg scale sT stride oshape n u out0 hs,
    NumpyRayleighForward_tensor_bad sT stride oshape n u out0 hsT]
  exact ⟨rfl, rfl, rfl, rfl, rfl, rfl, rfl, rfl⟩

/-- Witness for C7 at a = -1, scale = -2, aT = [0], sT = [-3], n = 1,
u ≡ 1/3, out0 ≡ 7. -/
theorem forward_failure_output_untouched_witness :
    (-1 : ℝ) ≤ 0 ∧ (-2 : ℝ) < 0 ∧
    (∃ x ∈ [(0 : ℝ)], x ≤ 0) ∧ (∃ x ∈ [(-3 : ℝ)], x < 0) ∧
    ((NumpyParetoForward (some (-1)) [0] [] [] 1 (fun _ => 1 / 3) (fun _ => 7)).ok = false ∧
      (NumpyParetoForward (some (-1)) [0] [] [] 1 (fun _ => 1 / 3) (fun _ => 7)).out
        = (fun _ => 7) ∧
      (NumpyParetoForward none [0] [] [] 1 (fun _ => 1 / 3) (fun _ => 7)).ok = false ∧
      (NumpyParetoForward none [0] [] [] 1 (fun _ => 1 / 3) (fun _ => 7)).out
        = (fun _ => 7) ∧
      (NumpyRayleighForward (some (-2)) [-3] [] [] 1 (fun _ => 1 / 3) (fun _ => 7)).ok = false ∧
      (NumpyRayleighForward (some (-2)) [-3] [] [] 1 (fun _ => 1 / 3) (fun _ => 7)).out
        = (fun _ => 7) ∧
      (NumpyRayleighForward none [-3] [] [] 1 (fun _ => 1 / 3) (fun _ => 7)).ok = false ∧
      (NumpyRayleighForward none [-3] [] [] 1 (fun _ => 1 / 3) (fun _ => 7)).out
        = (fun _ => 7)) :=
  ⟨by norm_num, by norm_num, by norm_num, by norm_num,
    forward_failure_output_untouched (-1) (-2) [0] [-3] [] [] 1 (fun _ => 1 / 3)
      (fun _ => 7) (by norm_num) (by norm_num) (by norm_num) (by norm_num)⟩

/-- Claim C8: for both distributions, the backward operation performs no
buffer writes (no-op) when the incoming gradient tensor has zero elements or
when the forward path was scalar-parameter (no tensor gradient output
present), and it delegates to the shared broadcast-backward reduction exactly
when none of those hold and the input arity is exactly 5. -/
theorem backward_delegation (inputsLen input0Size outputsLen : ℕ) :
    (ParetoReparamBackward inputsLen input0Size outputsLen = BwAction.noop ↔
        input0Size = 0 ∨ outputsLen = 0 ∨ inputsLen ≠ 5) ∧
    (ParetoReparamBackward inputsLen input0Size outputsLen = BwAction.delegate ↔
        input0Size ≠ 0 ∧ outputsLen ≠ 0 ∧ inputsLen = 5) ∧
    (RayleighReparamBackward inputsLen input0Size outputsLen = BwAction.noop ↔
        input0Size = 0 ∨ outputsLen = 0 ∨ inputsLen ≠ 5) ∧
    (RayleighReparamBackward inputsLen input0Size outputsLen = BwAction.delegate ↔
        input0Size ≠ 0 ∧ outputsLen ≠ 0 ∧ inputsLen = 5) := by
  unfold ParetoReparamBackward RayleighReparamBackward
  refine ⟨?_, ?_, ?_, ?_⟩ <;> split_ifs <;> simp_all

/-- Claim C10: in the tensor path of both distributions, the noise output
buffer is overwritten with the freshly drawn uniform(0,1) values before the
legality check is evaluated, so even a forward call that fails the domain
check has the noise buffer holding the fresh draws, while the primary output
buffer is untouched. -/
theorem forward_failure_noise_overwritten (aT sT : List ℝ) (stride oshape : List ℕ)
    (n : ℕ) (u out0 : ℕ → ℝ) (haT : ∃ x ∈ aT, x ≤ 0) (hsT : ∃ x ∈ sT, x < 0) :
    (NumpyParetoForward none aT stride oshape n u out0).ok = false ∧
    (NumpyParetoForward none aT stride oshape n u out0).noise = u ∧
    (NumpyParetoForward none aT stride oshape n u out0).out = out0 ∧
    (NumpyRayleighForward none sT stride oshape n u out0).ok = false ∧
    (NumpyRayleighForward none sT stride oshape n u out0).noise = u ∧
    (NumpyRayleighForward none sT stride oshape n u out0).out = out0 := by
  rw [NumpyParetoForward_tensor_bad aT stride oshape n u out0 haT,
    NumpyRayleighForward_tensor_bad sT stride oshape n u out0 hsT]
  exact ⟨rfl, rfl, rfl, rfl, rfl, rfl⟩

/-- Witness for C10 at aT = [-1], sT = [-1], n = 2, u ≡ 1/2, out0 ≡ 9. -/
theorem forward_failure_noise_overwritten_witness :
    (∃ x ∈ [(-1 : ℝ)], x ≤ 0) ∧ (∃ x ∈ [(-1 : ℝ)], x < 0) ∧
    ((NumpyParetoForward none [-1] [] [] 2 (fun _ => 1 / 2) (fun _ => 9)).ok = false ∧
      (NumpyParetoForward none [-1] [] [] 2 (fun _ => 1 / 2) (fun _ => 9)).noise
        = (fun _ => 1 / 2) ∧
      (NumpyParetoForward none [-1] [] [] 2 (fun _ => 1 / 2) (fun _ => 9)).out
        = (fun _ => 9) ∧
      (NumpyRayleighForward none [-1] [] [] 2 (fun _ => 1 / 2) (fun _ => 9)).ok = false ∧
      (NumpyRayleighForward none [-1] [] [] 2 (fun _ => 1 / 2) (fun _ => 9)).noise
        = (fun _ => 1 / 2) ∧
      (NumpyRayleighForward none [-1] [] [] 2 (fun _ => 1 / 2) (fun _ => 9)).out
        = (fun _ => 9)) :=
  ⟨by norm_num, by norm_num,
    forward_failure_noise_overwritten [-1] [-1] [] [] 2 (fun _ => 1 / 2) (fun _ => 9)
      (by norm_num) (by norm_num)⟩

end NpRandomOp
